import Mathlib

/-!
Shallow embedding of the environment-compatibility core of `uv-pub`:

* `crates/uv/src/commands/pip/mod.rs` — `resolution_markers`,
  `resolution_tags`, `resolution_environment`: the marker, tag and combined
  resolvers dispatching on the two optional overrides.
* `crates/uv-python/src/sysconfig/replacements.rs` —
  `ReplacementEntry::patch`: the sysconfig patcher.

External collaborator types (`Platform`, marker environments, `Tags`,
`TagsError`) are opaque to this core, so they are type parameters, and the
external tag-generation primitive `Tags::from_env` is a function parameter.
Rust's `Cow` is modelled by an inductive that records whether the value was
borrowed or freshly owned, so that the no-recomputation fast path is visible
in the result.  Rust's `str::split_whitespace` and `[String]::join(" ")` are
modelled by executable char-list recursions with the same semantics.
-/

namespace UvPub

/-- Model of `std::borrow::Cow`: records whether the value is a borrow of
existing data or a freshly computed owned value. -/
inductive Cow (α : Type) where
  | Owned : α → Cow α
  | Borrowed : α → Cow α
deriving DecidableEq, Repr

/-- `uv_configuration::TargetTriple`, as used by this core: a platform
descriptor offering a platform value, a manylinux-compatibility flag and a
marker-layering function. -/
structure TargetTriple (Platform MarkerEnv : Type) where
  platform : Platform
  manylinux_compatible : Bool
  markers : MarkerEnv → MarkerEnv

/-- `uv_python::PythonVersion`, as used by this core: a (major, minor)
version with a marker-layering function. -/
structure PythonVersion (MarkerEnv : Type) where
  major : Nat
  minor : Nat
  markers : MarkerEnv → MarkerEnv

/-- `uv_pypi_types::ResolverMarkerEnvironment`: a newtype over a marker
environment. -/
structure ResolverMarkerEnvironment (MarkerEnv : Type) where
  markers : MarkerEnv
deriving DecidableEq, Repr

/-- Model of `impl From<MarkerEnvironment> for ResolverMarkerEnvironment`. -/
def ResolverMarkerEnvironment.fromEnv {MarkerEnv : Type} (m : MarkerEnv) :
    ResolverMarkerEnvironment MarkerEnv :=
  ⟨m⟩

/-- `uv_python::Interpreter`, as used by this core: an immutable snapshot of
the running interpreter's facts.  `tags` models the fallible accessor
`Interpreter::tags() -> Result<&Tags, TagsError>` holding the precomputed
default tag list, and `resolver_marker_environment` the accessor returning
the precomputed default marker environment. -/
structure Interpreter (Platform MarkerEnv Tags TagsError : Type) where
  platform : Platform
  python_tuple : Nat × Nat
  implementation_name : String
  implementation_tuple : Nat × Nat
  manylinux_compatible : Bool
  gil_disabled : Bool
  markers : MarkerEnv
  resolver_marker_environment : ResolverMarkerEnvironment MarkerEnv
  tags : Except TagsError Tags

section Resolvers

variable {Platform MarkerEnv Tags TagsError : Type}

/- The external tag-generation primitive `Tags::from_env`, taking
(platform, version tuple, implementation name, implementation tuple,
manylinux-compatible, gil-disabled) and returning tags or a tag-generation
error. -/
variable (from_env : Platform → Nat × Nat → String → Nat × Nat → Bool → Bool →
    Except TagsError Tags)

/-- `resolution_markers` from `crates/uv/src/commands/pip/mod.rs`. -/
def resolution_markers (python_version : Option (PythonVersion MarkerEnv))
    (python_platform : Option (TargetTriple Platform MarkerEnv))
    (interpreter : Interpreter Platform MarkerEnv Tags TagsError) :
    ResolverMarkerEnvironment MarkerEnv :=
  match python_platform, python_version with
  | some python_platform, some python_version =>
      ResolverMarkerEnvironment.fromEnv
        (python_version.markers (python_platform.markers interpreter.markers))
  | some python_platform, none =>
      ResolverMarkerEnvironment.fromEnv
        (python_platform.markers interpreter.markers)
  | none, some python_version =>
      ResolverMarkerEnvironment.fromEnv
        (python_version.markers interpreter.markers)
  | none, none => interpreter.resolver_marker_environment

/-- `resolution_tags` from `crates/uv/src/commands/pip/mod.rs`.  Each
`Cow::Owned(Tags::from_env(..)?)` arm is modelled by mapping `Cow.Owned`
over the primitive's result, and `Cow::Borrowed(interpreter.tags()?)` by
mapping `Cow.Borrowed` over the precomputed tags. -/
def resolution_tags (python_version : Option (PythonVersion MarkerEnv))
    (python_platform : Option (TargetTriple Platform MarkerEnv))
    (interpreter : Interpreter Platform MarkerEnv Tags TagsError) :
    Except TagsError (Cow Tags) :=
  match python_platform, python_version with
  | some python_platform, some python_version =>
      (from_env python_platform.platform
        (python_version.major, python_version.minor)
        interpreter.implementation_name
        interpreter.implementation_tuple
        python_platform.manylinux_compatible
        interpreter.gil_disabled).map Cow.Owned
  | some python_platform, none =>
      (from_env python_platform.platform
        interpreter.python_tuple
        interpreter.implementation_name
        interpreter.implementation_tuple
        python_platform.manylinux_compatible
        interpreter.gil_disabled).map Cow.Owned
  | none, some python_version =>
      (from_env interpreter.platform
        (python_version.major, python_version.minor)
        interpreter.implementation_name
        interpreter.implementation_tuple
        interpreter.manylinux_compatible
        interpreter.gil_disabled).map Cow.Owned
  | none, none => interpreter.tags.map Cow.Borrowed

/-- `resolution_environment` from `crates/uv/src/commands/pip/mod.rs`,
with its own duplicated four-case dispatch for the tag part and the marker
part, exactly as in the source. -/
def resolution_environment (python_version : Option (PythonVersion MarkerEnv))
    (python_platform : Option (TargetTriple Platform MarkerEnv))
    (interpreter : Interpreter Platform MarkerEnv Tags TagsError) :
    Except TagsError (Cow Tags × ResolverMarkerEnvironment MarkerEnv) :=
  (match python_platform, python_version with
  | some python_platform, some python_version =>
      (from_env python_platform.platform
        (python_version.major, python_version.minor)
        interpreter.implementation_name
        interpreter.implementation_tuple
        python_platform.manylinux_compatible
        interpreter.gil_disabled).map Cow.Owned
  | some python_platform, none =>
      (from_env python_platform.platform
        interpreter.python_tuple
        interpreter.implementation_name
        interpreter.implementation_tuple
        python_platform.manylinux_compatible
        interpreter.gil_disabled).map Cow.Owned
  | none, some python_version =>
      (from_env interpreter.platform
        (python_version.major, python_version.minor)
        interpreter.implementation_name
        interpreter.implementation_tuple
        interpreter.manylinux_compatible
        interpreter.gil_disabled).map Cow.Owned
  | none, none => interpreter.tags.map Cow.Borrowed).bind
  fun tags =>
    let markers := match python_platform, python_version with
    | some python_platform, some python_version =>
        ResolverMarkerEnvironment.fromEnv
          (python_version.markers (python_platform.markers interpreter.markers))
    | some python_platform, none =>
        ResolverMarkerEnvironment.fromEnv
          (python_platform.markers interpreter.markers)
    | none, some python_version =>
        ResolverMarkerEnvironment.fromEnv
          (python_version.markers interpreter.markers)
    | none, none => interpreter.resolver_marker_environment
    Except.ok (tags, markers)

end Resolvers

/-- `ReplacementMode` from `crates/uv-python/src/sysconfig/replacements.rs`:
either replace a specific word (`Partial { from }`) or the whole value
(`Full`). -/
inductive ReplacementMode where
  | Partial : String → ReplacementMode
  | Full : ReplacementMode
deriving DecidableEq, Repr

/-- `ReplacementEntry` from `crates/uv-python/src/sysconfig/replacements.rs`. -/
structure ReplacementEntry where
  mode : ReplacementMode
  «to» : String
deriving DecidableEq, Repr

/-- Accumulator recursion implementing Rust `str::split_whitespace` on the
character list: maximal runs of non-whitespace characters, in order; runs of
whitespace separate words and produce no empty words. -/
def splitWSAux : List Char → List Char → List (List Char)
  | [], cur => if cur = [] then [] else [cur.reverse]
  | c :: cs, cur =>
    if c.isWhitespace then
      if cur = [] then splitWSAux cs []
      else cur.reverse :: splitWSAux cs []
    else splitWSAux cs (c :: cur)

/-- Model of Rust `str::split_whitespace` collected into a list. -/
def split_whitespace (s : String) : List String :=
  (splitWSAux s.data []).map String.mk

/-- Model of Rust `[&str]::join(" ")`: interleave a single space between
consecutive elements. -/
def joinWords : List String → String
  | [] => ""
  | [w] => w
  | w :: ws => w ++ " " ++ joinWords ws

/-- `ReplacementEntry::patch` from
`crates/uv-python/src/sysconfig/replacements.rs`: in `Partial` mode split
the entry on whitespace, replace every word equal to `from` by `to`, and
join with single spaces; in `Full` mode return `to`. -/
def ReplacementEntry.patch (self : ReplacementEntry) (entry : String) : String :=
  match self.mode with
  | ReplacementMode.Partial fr =>
      joinWords ((split_whitespace entry).map fun word =>
        if word = fr then self.to else word)
  | ReplacementMode.Full => self.to

/-! Concrete sample values used to instantiate the parametrized resolver
theorems on closed inputs.  `Platform` is instantiated with `String`,
`MarkerEnv` with `Nat`, `Tags` with `List String` and `TagsError` with
`String`. -/

/-- A concrete interpreter-facts sample. -/
def sampleInterp : Interpreter String Nat (List String) String where
  platform := "linux-x86_64"
  python_tuple := (3, 11)
  implementation_name := "cpython"
  implementation_tuple := (3, 11)
  manylinux_compatible := true
  gil_disabled := false
  markers := 0
  resolver_marker_environment := ⟨0⟩
  tags := Except.ok ["cp311-cp311-manylinux_x86_64"]

/-- A concrete platform-override sample. -/
def sampleTriple : TargetTriple String Nat :=
  ⟨"aarch64-apple-darwin", false, fun m => m + 1⟩

/-- A concrete version-override sample. -/
def sampleVersion : PythonVersion Nat :=
  ⟨3, 9, fun m => m + 10⟩

/-- A concrete tag-generation primitive sample. -/
def fromEnvW :
    String → Nat × Nat → String → Nat × Nat → Bool → Bool →
      Except String (List String) :=
  fun pl vt nm _ _ _ =>
    Except.ok [pl, toString vt.1 ++ "." ++ toString vt.2, nm]

/-- A second tag-generation primitive sample, agreeing with `fromEnvW` on
exactly the implementation identity of `sampleInterp`. -/
def fromEnvW₂ :
    String → Nat × Nat → String → Nat × Nat → Bool → Bool →
      Except String (List String) :=
  fun pl vt nm tup ml gil =>
    if nm = "cpython" ∧ tup = (3, 11) ∧ gil = false then
      fromEnvW pl vt nm tup ml gil
    else
      Except.error "mismatch"

/-- A tag-generation primitive sample that always fails. -/
def errEnvW :
    String → Nat × Nat → String → Nat × Nat → Bool → Bool →
      Except String (List String) :=
  fun _ _ _ _ _ _ => Except.error "boom"

/-! ## Helper lemmas -/

theorem bind_ok_pair_eq_map {ε α β : Type} (e : Except ε α) (f : α → β) :
    (e.bind fun a => Except.ok (f a)) = e.map f := by
  cases e <;> rfl

theorem except_map_eq_error {ε α β : Type} {f : α → β} {x : Except ε α} {e : ε}
    (h : x.map f = Except.error e) : x = Except.error e := by
  cases x with
  | ok a => simp [Except.map] at h
  | error e₀ => simpa [Except.map] using h

section ResolverTheorems

variable {Platform MarkerEnv Tags TagsError : Type}

/-- The combined resolver, expressed as the product of the two independent
resolvers.  Shared by the claims below. -/
theorem resolution_environment_eq_product
    (from_env : Platform → Nat × Nat → String → Nat × Nat → Bool → Bool →
      Except TagsError Tags)
    (python_version : Option (PythonVersion MarkerEnv))
    (python_platform : Option (TargetTriple Platform MarkerEnv))
    (interpreter : Interpreter Platform MarkerEnv Tags TagsError) :
    resolution_environment from_env python_version python_platform interpreter =
      (resolution_tags from_env python_version python_platform interpreter).map
        fun tags =>
          (tags, resolution_markers python_version python_platform interpreter) := by
  rcases python_platform with _ | pp <;> rcases python_version with _ | pv <;>
    exact bind_ok_pair_eq_map _ _

/-- The tag resolver never recovers or rewrites an error of the
tag-generation step: when it fails, the error is exactly an error produced
by `from_env` at the facts' implementation identity, or the error of the
facts' own precomputed tags.  Shared by the claims below. -/
theorem resolution_tags_error_source
    (from_env : Platform → Nat × Nat → String → Nat × Nat → Bool → Bool →
      Except TagsError Tags)
    (python_version : Option (PythonVersion MarkerEnv))
    (python_platform : Option (TargetTriple Platform MarkerEnv))
    (interpreter : Interpreter Platform MarkerEnv Tags TagsError)
    (e : TagsError)
    (h : resolution_tags from_env python_version python_platform interpreter =
      Except.error e) :
    (∃ pl vt ml, from_env pl vt interpreter.implementation_name
        interpreter.implementation_tuple ml interpreter.gil_disabled =
        Except.error e) ∨
      interpreter.tags = Except.error e := by
  rcases python_platform with _ | pp <;> rcases python_version with _ | pv
  · exact Or.inr (except_map_eq_error h)
  · exact Or.inl ⟨interpreter.platform, (pv.major, pv.minor),
      interpreter.manylinux_compatible, except_map_eq_error h⟩
  · exact Or.inl ⟨pp.platform, interpreter.python_tuple,
      pp.manylinux_compatible, except_map_eq_error h⟩
  · exact Or.inl ⟨pp.platform, (pv.major, pv.minor),
      pp.manylinux_compatible, except_map_eq_error h⟩

/-- C1: for every interpreter-facts value and all four override
combinations, the combined resolver returns exactly the pair of the
independent tag resolver's result (errors included) and the independent
marker resolver's result. -/
theorem resolution_environment_is_product
    (from_env : Platform → Nat × Nat → String → Nat × Nat → Bool → Bool →
      Except TagsError Tags)
    (python_version : Option (PythonVersion MarkerEnv))
    (python_platform : Option (TargetTriple Platform MarkerEnv))
    (interpreter : Interpreter Platform MarkerEnv Tags TagsError) :
    resolution_environment from_env python_version python_platform interpreter =
      (resolution_tags from_env python_version python_platform interpreter).map
        fun tags =>
          (tags, resolution_markers python_version python_platform interpreter) :=
  resolution_environment_eq_product from_env python_version python_platform
    interpreter

/-- C2: with both overrides absent, the tag resolver returns the
interpreter facts' own precomputed tag list as a borrow (not a recomputed
owned copy), and its result does not depend on the tag-generation primitive
at all. -/
theorem resolution_tags_no_overrides
    (from_env : Platform → Nat × Nat → String → Nat × Nat → Bool → Bool →
      Except TagsError Tags)
    (interpreter : Interpreter Platform MarkerEnv Tags TagsError) :
    resolution_tags from_env none none interpreter =
      interpreter.tags.map Cow.Borrowed ∧
    ∀ g : Platform → Nat × Nat → String → Nat × Nat → Bool → Bool →
      Except TagsError Tags,
      resolution_tags g none none interpreter =
        resolution_tags from_env none none interpreter :=
  ⟨rfl, fun _ => rfl⟩

/-- C3: the implementation name, implementation tuple and GIL-disabled flag
passed to the tag-generation primitive are always those of the interpreter
facts: two primitives that agree whenever called with the facts'
implementation identity yield identical tag-resolver and combined-resolver
results, for every override combination. -/
theorem resolution_tags_implementation_identity
    (g₁ g₂ : Platform → Nat × Nat → String → Nat × Nat → Bool → Bool →
      Except TagsError Tags)
    (interpreter : Interpreter Platform MarkerEnv Tags TagsError)
    (h : ∀ pl vt ml,
      g₁ pl vt interpreter.implementation_name interpreter.implementation_tuple
          ml interpreter.gil_disabled =
        g₂ pl vt interpreter.implementation_name
          interpreter.implementation_tuple ml interpreter.gil_disabled)
    (python_version : Option (PythonVersion MarkerEnv))
    (python_platform : Option (TargetTriple Platform MarkerEnv)) :
    resolution_tags g₁ python_version python_platform interpreter =
      resolution_tags g₂ python_version python_platform interpreter ∧
    resolution_environment g₁ python_version python_platform interpreter =
      resolution_environment g₂ python_version python_platform interpreter := by
  rcases python_platform with _ | pp <;> rcases python_version with _ | pv <;>
    exact ⟨by simp only [resolution_tags, h],
      by simp only [resolution_environment, h]⟩

/-- C4: the marker resolver is a pure, total composition: both overrides
set layers the version markers over the platform markers over the facts'
markers; a single override layers only itself; no override returns the
facts' own precomputed marker environment directly. -/
theorem resolution_markers_cases
    (pv : PythonVersion MarkerEnv)
    (pp : TargetTriple Platform MarkerEnv)
    (interpreter : Interpreter Platform MarkerEnv Tags TagsError) :
    resolution_markers (some pv) (some pp) interpreter =
      ResolverMarkerEnvironment.fromEnv
        (pv.markers (pp.markers interpreter.markers)) ∧
    resolution_markers none (some pp) interpreter =
      ResolverMarkerEnvironment.fromEnv (pp.markers interpreter.markers) ∧
    resolution_markers (some pv) (none : Option (TargetTriple Platform MarkerEnv))
        interpreter =
      ResolverMarkerEnvironment.fromEnv (pv.markers interpreter.markers) ∧
    resolution_markers (none : Option (PythonVersion MarkerEnv))
        (none : Option (TargetTriple Platform MarkerEnv)) interpreter =
      interpreter.resolver_marker_environment :=
  ⟨rfl, rfl, rfl, rfl⟩

/-- C5: the only error kind in the core is tag-generation failure: the
marker resolver and the sysconfig patcher are total (always return a plain
value), the combined resolver fails exactly when the tag resolver fails
with the same error, and every tag-resolver error is the error produced by
the tag-generation step (the primitive, called at the facts' implementation
identity, or the facts' own precomputed tags), propagated unrecovered. -/
theorem error_taxonomy
    (from_env : Platform → Nat × Nat → String → Nat × Nat → Bool → Bool →
      Except TagsError Tags)
    (python_version : Option (PythonVersion MarkerEnv))
    (python_platform : Option (TargetTriple Platform MarkerEnv))
    (interpreter : Interpreter Platform MarkerEnv Tags TagsError)
    (e : TagsError)
    (h : resolution_tags from_env python_version python_platform interpreter =
      Except.error e) :
    ((∃ pl vt ml, from_env pl vt interpreter.implementation_name
        interpreter.implementation_tuple ml interpreter.gil_disabled =
        Except.error e) ∨
      interpreter.tags = Except.error e) ∧
    resolution_environment from_env python_version python_platform interpreter =
      Except.error e ∧
    (∀ e₀ : TagsError,
      resolution_environment from_env python_version python_platform
          interpreter = Except.error e₀ ↔
        resolution_tags from_env python_version python_platform interpreter =
          Except.error e₀) ∧
    (∀ (v : Option (PythonVersion MarkerEnv))
        (p : Option (TargetTriple Platform MarkerEnv))
        (i : Interpreter Platform MarkerEnv Tags TagsError),
      ∃ m, resolution_markers v p i = m) ∧
    (∀ (entry : ReplacementEntry) (s : String), ∃ out, entry.patch s = out) := by
  refine ⟨resolution_tags_error_source from_env python_version python_platform
      interpreter e h, ?_, ?_, fun v p i => ⟨_, rfl⟩, fun entry s => ⟨_, rfl⟩⟩
  · rw [resolution_environment_eq_product, h]
    simp [Except.map]
  · intro e₀
    rw [resolution_environment_eq_product]
    constructor
    · exact fun h₀ => except_map_eq_error h₀
    · intro h₀
      rw [h₀]
      simp [Except.map]

end ResolverTheorems

/-- Witness for C3 at concrete inputs: `fromEnvW` and `fromEnvW₂` agree at
`sampleInterp`'s implementation identity, so both resolvers coincide. -/
theorem resolution_tags_implementation_identity_witness :
    resolution_tags fromEnvW (some sampleVersion) none sampleInterp =
      resolution_tags fromEnvW₂ (some sampleVersion) none sampleInterp ∧
    resolution_environment fromEnvW (some sampleVersion) none sampleInterp =
      resolution_environment fromEnvW₂ (some sampleVersion) none sampleInterp :=
  resolution_tags_implementation_identity fromEnvW fromEnvW₂ sampleInterp
    (by intro pl vt ml; simp [sampleInterp, fromEnvW₂]) (some sampleVersion) none

/-- Witness for C5 at concrete inputs: with the always-failing
tag-generation primitive, the combined resolver propagates the same
error. -/
theorem error_taxonomy_witness :
    resolution_environment errEnvW (some sampleVersion) (some sampleTriple)
      sampleInterp = Except.error "boom" :=
  (error_taxonomy errEnvW (some sampleVersion) (some sampleTriple) sampleInterp
    "boom" rfl).2.1

/-! ## Sysconfig patcher lemmas -/

theorem splitWSAux_words (cs : List Char) :
    ∀ cur, (∀ c ∈ cur, c.isWhitespace = false) →
      ∀ w ∈ splitWSAux cs cur, w ≠ [] ∧ ∀ c ∈ w, c.isWhitespace = false := by
  induction cs with
  | nil =>
    intro cur hcur w hw
    simp only [splitWSAux] at hw
    by_cases h : cur = []
    · simp [h] at hw
    · rw [if_neg h] at hw
      simp only [List.mem_singleton] at hw
      subst hw
      refine ⟨by simpa using h, fun c hc => hcur c (List.mem_reverse.mp hc)⟩
  | cons c cs ih =>
    intro cur hcur w hw
    simp only [splitWSAux] at hw
    by_cases hws : c.isWhitespace
    · rw [if_pos hws] at hw
      by_cases h : cur = []
      · rw [if_pos h] at hw
        exact ih [] (by simp) w hw
      · rw [if_neg h] at hw
        rcases List.mem_cons.mp hw with hw | hw
        · subst hw
          refine ⟨by simpa using h,
            fun c' hc' => hcur c' (List.mem_reverse.mp hc')⟩
        · exact ih [] (by simp) w hw
    · rw [if_neg hws] at hw
      refine ih (c :: cur) ?_ w hw
      intro c' hc'
      rcases List.mem_cons.mp hc' with rfl | hc'
      · simpa using hws
      · exact hcur c' hc'

theorem splitWSAux_append (w : List Char)
    (hw : ∀ c ∈ w, c.isWhitespace = false) :
    ∀ cs cur, splitWSAux (w ++ cs) cur = splitWSAux cs (w.reverse ++ cur) := by
  induction w with
  | nil => intro cs cur; simp
  | cons c w ih =>
    intro cs cur
    have hc : c.isWhitespace = false := hw c (List.mem_cons_self c w)
    simp only [List.cons_append, splitWSAux, List.append_eq]
    rw [if_neg (by simp [hc])]
    rw [ih (fun c' h' => hw c' (List.mem_cons_of_mem _ h')) cs (c :: cur)]
    simp [List.reverse_cons, List.append_assoc]

theorem data_eq_nil_iff {w : String} : w.data = [] ↔ w = "" :=
  ⟨fun h => String.ext h, fun h => by rw [h]⟩

/-- Every word produced by `split_whitespace` is nonempty and contains no
whitespace character: words are maximal whitespace-free runs. -/
theorem split_whitespace_words (s : String) :
    ∀ w ∈ split_whitespace s, w ≠ "" ∧ ∀ c ∈ w.data, c.isWhitespace = false := by
  intro w hw
  rcases List.mem_map.mp hw with ⟨l, hl, rfl⟩
  rcases splitWSAux_words s.data [] (by simp) l hl with ⟨h₁, h₂⟩
  exact ⟨fun h => h₁ (data_eq_nil_iff.mpr h), h₂⟩

/-- Splitting is a retraction of single-space joining on lists of nonempty
whitespace-free words. -/
theorem split_whitespace_joinWords (ss : List String)
    (h : ∀ w ∈ ss, w ≠ "" ∧ ∀ c ∈ w.data, c.isWhitespace = false) :
    split_whitespace (joinWords ss) = ss := by
  induction ss with
  | nil => rfl
  | cons w ws ih =>
    rcases h w (List.mem_cons_self w ws) with ⟨hw0, hwc⟩
    have hwd : w.data ≠ [] := fun hd => hw0 (data_eq_nil_iff.mp hd)
    cases ws with
    | nil =>
      show split_whitespace (joinWords [w]) = [w]
      unfold split_whitespace joinWords
      have := splitWSAux_append w.data hwc [] []
      rw [List.append_nil] at this
      rw [this]
      simp only [splitWSAux, List.append_nil]
      rw [if_neg (by simpa using hwd)]
      simp
    | cons w₂ ws₂ =>
      have hdata : (joinWords (w :: w₂ :: ws₂)).data =
          w.data ++ (' ' :: (joinWords (w₂ :: ws₂)).data) := by
        show ((w ++ " ") ++ joinWords (w₂ :: ws₂)).data = _
        rw [String.data_append, String.data_append]
        simp
      unfold split_whitespace
      rw [hdata, splitWSAux_append w.data hwc, List.append_nil]
      simp only [splitWSAux]
      rw [if_pos (by simp)]
      rw [if_neg (by simpa using hwd)]
      simp only [List.reverse_reverse, List.map_cons]
      rw [show String.mk w.data = w from rfl]
      exact congrArg (w :: ·) (ih fun x hx => h x (List.mem_cons_of_mem _ hx))

/-- Splitting a single nonempty whitespace-free word yields that word. -/
theorem split_whitespace_single (w : String) (h₁ : w ≠ "")
    (h₂ : ∀ c ∈ w.data, c.isWhitespace = false) :
    split_whitespace w = [w] := by
  have h := split_whitespace_joinWords [w] ?_
  · simpa [joinWords] using h
  · intro x hx
    rcases List.mem_singleton.mp hx with rfl
    exact ⟨h₁, h₂⟩

theorem map_subst_idem (fr t : String) (l : List String) :
    (l.map fun w => if w = fr then t else w).map
        (fun w => if w = fr then t else w) =
      l.map fun w => if w = fr then t else w := by
  induction l with
  | nil => rfl
  | cons w l ih =>
    simp only [List.map_cons, ih, List.cons.injEq, and_true]
    by_cases hw : w = fr
    · by_cases ht : t = fr <;> simp [hw, ht]
    · simp [hw]

theorem map_subst_no_match (fr t : String) (l : List String)
    (h : ∀ w ∈ l, w ≠ fr) :
    (l.map fun w => if w = fr then t else w) = l := by
  induction l with
  | nil => rfl
  | cons w l ih =>
    simp only [List.map_cons, if_neg (h w (List.mem_cons_self w l)),
      List.cons.injEq, true_and]
    exact ih fun x hx => h x (List.mem_cons_of_mem _ hx)

/-! ## Sysconfig patcher claims -/

/-- C6: a `Full`-mode entry ignores the original value entirely and returns
`to` unchanged, for every input string (the empty string included). -/
theorem patch_full_ignores_input (t s : String) :
    ReplacementEntry.patch ⟨ReplacementMode.Full, t⟩ s = t := rfl

/-- C7: a `Partial`-mode entry splits the input into its maximal
whitespace-free words (each nonempty, containing no whitespace), replaces
every word equal to `from` by `to` and leaves the others unchanged, and
rejoins all words with single spaces; in particular
`patch (Partial "a" → "Z") "a b a" = "Z b Z"`. -/
theorem patch_partial_replaces_matching_words (fr t s : String) :
    ReplacementEntry.patch ⟨ReplacementMode.Partial fr, t⟩ s =
      joinWords ((split_whitespace s).map fun word =>
        if word = fr then t else word) ∧
    (∀ w ∈ split_whitespace s,
      w ≠ "" ∧ ∀ c ∈ w.data, c.isWhitespace = false) ∧
    ReplacementEntry.patch ⟨ReplacementMode.Partial "a", "Z"⟩ "a b a" =
      "Z b Z" :=
  ⟨rfl, split_whitespace_words s, by decide⟩

/-- C8: a `Partial`-mode entry maps the empty string to the empty string,
and when no word of the input equals `from` it returns the input's words
rejoined with single spaces (whitespace-normalized, content unchanged); in
particular `patch (Partial "a" → "Z") "b  c" = "b c"`. -/
theorem patch_partial_no_match (fr t s : String)
    (h : ∀ w ∈ split_whitespace s, w ≠ fr) :
    ReplacementEntry.patch ⟨ReplacementMode.Partial fr, t⟩ "" = "" ∧
    ReplacementEntry.patch ⟨ReplacementMode.Partial fr, t⟩ s =
      joinWords (split_whitespace s) ∧
    ReplacementEntry.patch ⟨ReplacementMode.Partial "a", "Z"⟩ "b  c" =
      "b c" := by
  refine ⟨rfl, ?_, by decide⟩
  show joinWords ((split_whitespace s).map _) = _
  rw [map_subst_no_match fr t _ h]

/-- Witness for C8 at concrete inputs: no word of `"b  c"` equals `"a"`. -/
theorem patch_partial_no_match_witness :
    ReplacementEntry.patch ⟨ReplacementMode.Partial "a", "Z"⟩ "" = "" ∧
    ReplacementEntry.patch ⟨ReplacementMode.Partial "a", "Z"⟩ "b  c" =
      joinWords (split_whitespace "b  c") ∧
    ReplacementEntry.patch ⟨ReplacementMode.Partial "a", "Z"⟩ "b  c" =
      "b c" :=
  patch_partial_no_match "a" "Z" "b  c" (by decide)

/-- C9: in `Partial` mode the replacement value `to` is substituted
verbatim, interior whitespace included: patching the word `from` itself
yields exactly `to`, whatever `to` is; in particular
`patch (Partial "a" → "x  y") "a" = "x  y"`. -/
theorem patch_partial_to_verbatim (fr t : String) (h₁ : fr ≠ "")
    (h₂ : ∀ c ∈ fr.data, c.isWhitespace = false) :
    ReplacementEntry.patch ⟨ReplacementMode.Partial fr, t⟩ fr = t ∧
    ReplacementEntry.patch ⟨ReplacementMode.Partial "a", "x  y"⟩ "a" =
      "x  y" := by
  refine ⟨?_, by decide⟩
  show joinWords ((split_whitespace fr).map _) = t
  rw [split_whitespace_single fr h₁ h₂]
  simp [joinWords]

/-- Witness for C9 at concrete inputs. -/
theorem patch_partial_to_verbatim_witness :
    ReplacementEntry.patch ⟨ReplacementMode.Partial "a", "x  y"⟩ "a" =
      "x  y" ∧
    ReplacementEntry.patch ⟨ReplacementMode.Partial "a", "x  y"⟩ "a" =
      "x  y" :=
  patch_partial_to_verbatim "a" "x  y" (by decide) (by decide)

/-- C10 counterexample: the empty replacement string contains no whitespace
character, yet patching is not idempotent with it: one application to
`"a b"` yields `" b"`, a second application yields `"b"`. -/
theorem patch_partial_idem_counterexample :
    ReplacementEntry.patch ⟨ReplacementMode.Partial "a", ""⟩ "a b" = " b" ∧
    ReplacementEntry.patch ⟨ReplacementMode.Partial "a", ""⟩
        (ReplacementEntry.patch ⟨ReplacementMode.Partial "a", ""⟩ "a b") =
      "b" ∧
    ReplacementEntry.patch ⟨ReplacementMode.Partial "a", ""⟩
        (ReplacementEntry.patch ⟨ReplacementMode.Partial "a", ""⟩ "a b") ≠
      ReplacementEntry.patch ⟨ReplacementMode.Partial "a", ""⟩ "a b" := by
  refine ⟨by decide, by decide, by decide⟩

/-- C10 (amended): for every `Partial`-mode entry whose `to` is nonempty
and contains no whitespace character, patching is idempotent. -/
theorem patch_partial_idempotent (fr t : String) (h₁ : t ≠ "")
    (h₂ : ∀ c ∈ t.data, c.isWhitespace = false) (s : String) :
    ReplacementEntry.patch ⟨ReplacementMode.Partial fr, t⟩
        (ReplacementEntry.patch ⟨ReplacementMode.Partial fr, t⟩ s) =
      ReplacementEntry.patch ⟨ReplacementMode.Partial fr, t⟩ s := by
  show joinWords (List.map _ (split_whitespace (joinWords
      (List.map _ (split_whitespace s))))) = _
  have hclean : ∀ w ∈ (split_whitespace s).map
      (fun word => if word = fr then t else word),
      w ≠ "" ∧ ∀ c ∈ w.data, c.isWhitespace = false := by
    intro w hw
    rcases List.mem_map.mp hw with ⟨w₀, hw₀, rfl⟩
    by_cases hcase : w₀ = fr
    · simpa [hcase] using ⟨h₁, h₂⟩
    · simpa [hcase] using split_whitespace_words s w₀ hw₀
  rw [split_whitespace_joinWords _ hclean, map_subst_idem]
  rfl

/-- Witness for C10 (amended) at concrete inputs. -/
theorem patch_partial_idempotent_witness :
    ReplacementEntry.patch ⟨ReplacementMode.Partial "a", "Z"⟩
        (ReplacementEntry.patch ⟨ReplacementMode.Partial "a", "Z"⟩
          "a  b a") =
      ReplacementEntry.patch ⟨ReplacementMode.Partial "a", "Z"⟩ "a  b a" :=
  patch_partial_idempotent "a" "Z" (by decide) (by decide) "a  b a"

end UvPub
